import Mathlib

/-!
Verification development for the SPOTection occupancy-inference engine.

The geometric primitives used by the Python code (`shapely`'s polygon /
box regions, `.intersection` and `.area`) are modelled by subsets of the
real plane with Lebesgue measure as area.  The engine logic itself
(`spotection_system.py`, function `quick_fix_detection`), the calibration
editor (`complete_calibration_tool.py`) and the overlap test of
`yolox_inference/spot_mapper.py` are embedded one to one below.
-/

open MeasureTheory Set

namespace Spotection

/-- Area of a plane region, as computed by shapely's `.area`. -/
noncomputable def area (S : Set (ℝ × ℝ)) : ℝ := (volume S).toReal

/-- Region of shapely's `box(x1, y1, x2, y2)`: the axis-aligned rectangle
with corners `(x1, y1)` and `(x2, y2)`. -/
def boxSet (x1 y1 x2 y2 : ℝ) : Set (ℝ × ℝ) := Set.Icc x1 x2 ×ˢ Set.Icc y1 y2

/-- Area of the geometric intersection of two regions
(`a.intersection(b).area` in shapely). -/
noncomputable def interArea (S B : Set (ℝ × ℝ)) : ℝ := area (S ∩ B)

/-- The overlap formula of `spotection_system.py` line 96:
`intersection.area / min(spot_polygon.area, det['box'].area)`. -/
noncomputable def overlap_ratio (S B : Set (ℝ × ℝ)) : ℝ :=
  interArea S B / min (area S) (area B)

/-- One detector output, as built in `spotection_system.py` lines 39-45:
an index, a class label, a confidence and the integer bbox corners. -/
structure Detection where
  idx : ℕ
  cls : String
  confidence : ℚ
  x1 : ℤ
  y1 : ℤ
  x2 : ℤ
  y2 : ℤ
deriving DecidableEq

/-- The shapely `box(x1, y1, x2, y2)` stored with each detection
(`spotection_system.py` line 44). -/
def Detection.box (d : Detection) : Set (ℝ × ℝ) :=
  boxSet (d.x1 : ℝ) (d.y1 : ℝ) (d.x2 : ℝ) (d.y2 : ℝ)

/-- `spotection_system.py` line 31. -/
def vehicle_classes : List String := ["car", "truck", "bus", "van", "motorcycle", "bicycle"]

/-- The filter of `spotection_system.py` line 50:
`class_name in vehicle_classes and confidence > 0.1`. -/
def isVehicleDetection (d : Detection) : Bool :=
  decide (d.cls ∈ vehicle_classes ∧ (1 : ℚ)/10 < d.confidence)

/-- The max-overlap scan loop of `spotection_system.py` lines 93-99 (and,
re-run with the accumulator it left, lines 103-109): for each detection,
if the intersection area is positive, compute the overlap ratio and keep
it together with its detection when it beats the current maximum. -/
noncomputable def scanDetections (S : Set (ℝ × ℝ)) (dets : List Detection)
    (acc : ℝ × Option Detection) : ℝ × Option Detection :=
  dets.foldl
    (fun acc det =>
      if 0 < interArea S det.box then
        if acc.1 < overlap_ratio S det.box then (overlap_ratio S det.box, some det) else acc
      else acc)
    acc

/-- The two-phase matching of `spotection_system.py` lines 88-109: first
scan the vehicle detections; if the maximum overlap is still zero, scan
all detections. Returns `(max_overlap, best_detection)`. -/
noncomputable def classifyScan (S : Set (ℝ × ℝ)) (dets : List Detection) :
    ℝ × Option Detection :=
  let vehicle_detections := dets.filter isVehicleDetection
  let p := scanDetections S vehicle_detections (0, none)
  if p.1 = 0 then scanDetections S dets p else p

/-- The constant of `spotection_system.py` line 112. -/
def threshold : ℚ := 1/100

/-- The decision of `spotection_system.py` lines 114-118:
`OCCUPIED` when `max_overlap > threshold`, else `FREE`. -/
noncomputable def statusOf (t : ℝ) (S : Set (ℝ × ℝ)) (dets : List Detection) : String :=
  if t < (classifyScan S dets).1 then "OCCUPIED" else "FREE"

/-- One persisted spot entry: `{"id": ..., "polygon": ...}`. -/
structure SpotEntry where
  id : String
  polygon : List (ℤ × ℤ)
deriving DecidableEq

/-- One element of `results_data` (`spotection_system.py` lines 144-149). -/
structure Snapshot where
  id : String
  status : String
  overlap : ℝ
  detection : Option String

/-- The body of the per-spot loop of `spotection_system.py` lines 81-153.
The external shapely evaluation of a polygon is passed in as `shape`:
`some S` when `Polygon(coords)` and the subsequent geometric operations
succeed with region `S`, `none` when they raise.  The `except` branch
(line 151-153) prints and `continue`s, so a failing spot produces no
snapshot at all. -/
noncomputable def processSpot (shape : List (ℤ × ℤ) → Option (Set (ℝ × ℝ)))
    (t : ℝ) (dets : List Detection) (s : SpotEntry) : Option Snapshot :=
  match shape s.polygon with
  | none => none
  | some S =>
      let m := classifyScan S dets
      some ⟨s.id, if t < m.1 then "OCCUPIED" else "FREE", m.1, m.2.map Detection.cls⟩

/-- The full inference pass over the registry (`spotection_system.py`
lines 79-153): `results_data` collects one record per spot whose
try-block succeeded, in registry order. -/
noncomputable def quick_fix_results (shape : List (ℤ × ℤ) → Option (Set (ℝ × ℝ)))
    (t : ℝ) (dets : List Detection) (spots : List SpotEntry) : List Snapshot :=
  spots.filterMap (processSpot shape t dets)

/-- Registry load in `spotection_system.py` lines 17-18: `json.load` of an
already-parseable layout performs no validation of the entries at all, so
it never fails on a malformed polygon. -/
def load_layout (entries : List SpotEntry) : Except String (List SpotEntry) :=
  Except.ok entries

/-- Registry load in `complete_calibration_tool.py` lines 39-47: the parse
outcome of `data/spot_layout.json` is `some existing` on success (spots
extended, `spot_counter = len(spots) + 1`) and `none` when anything raised
(fresh start: no spots, counter 1). -/
def calibration_load (parsed : Option (List SpotEntry)) : List SpotEntry × ℕ :=
  match parsed with
  | some existing => (existing, existing.length + 1)
  | none => ([], 1)

/-- Mutable state of the calibration session
(`complete_calibration_tool.py` lines 35-37). -/
structure CalibState where
  spots : List SpotEntry
  current_polygon : List (ℤ × ℤ)
  spot_counter : ℕ
deriving DecidableEq

/-- Spot id assignment of `complete_calibration_tool.py` line 128. -/
def spotId (n : ℕ) : String := "spot_" ++ toString n

/-- The `EVENT_LBUTTONDOWN` branch of `mouse_callback`
(`complete_calibration_tool.py` lines 119-135): append the click to
`current_polygon`; on the 4th point append a completed spot to the
registry, clear the buffer and bump the counter. -/
def add_point (st : CalibState) (x y : ℤ) : CalibState :=
  let cp := st.current_polygon ++ [(x, y)]
  if cp.length = 4 then
    { spots := st.spots ++ [⟨spotId st.spot_counter, cp⟩]
      current_polygon := []
      spot_counter := st.spot_counter + 1 }
  else
    { st with current_polygon := cp }

/-- Result of handling one key press in the main loop
(`complete_calibration_tool.py` lines 143-175): next state, the layout
written to disk (if any), the message printed (if any), and whether the
session loop ends (`break`). -/
structure KeyStep where
  state : CalibState
  written : Option (List SpotEntry)
  message : Option String
  session_ends : Bool
deriving DecidableEq

/-- The `'s'` branch (`complete_calibration_tool.py` lines 152-165): save
and break only when there is at least one spot, otherwise report
`"No spots to save!"` and keep looping. -/
def handle_save (st : CalibState) : KeyStep :=
  if 0 < st.spots.length then
    ⟨st, some st.spots, none, true⟩
  else
    ⟨st, none, some "No spots to save!", false⟩

/-- The `'r'` branch (`complete_calibration_tool.py` lines 166-168). -/
def handle_reset (st : CalibState) : KeyStep :=
  ⟨{ st with current_polygon := [] }, none, some "Reset current polygon", false⟩

/-- The `'u'` branch (`complete_calibration_tool.py` lines 169-175): pop
the last spot and decrement the counter when the registry is non-empty,
otherwise report `"No spots to undo!"`; the session continues either way. -/
def handle_undo (st : CalibState) : KeyStep :=
  if 0 < st.spots.length then
    ⟨⟨st.spots.dropLast, st.current_polygon, st.spot_counter - 1⟩, none,
      some ("Removed " ++ ((st.spots.getLast?).map SpotEntry.id).getD ""), false⟩
  else
    ⟨st, none, some "No spots to undo!", false⟩

/-- The per-spot occupancy test of `yolox_inference/spot_mapper.py`
line 53, abstracted over the overlap area, the two areas and the
threshold (the source instantiates the threshold at `0.15`):
`overlap_area / spot_poly.area > t or overlap_area / car_box.area > t`. -/
def spot_mapper_occupied_test (overlap_area spot_area box_area t : ℚ) : Prop :=
  t < overlap_area / spot_area ∨ t < overlap_area / box_area

/-- The threshold constant of `yolox_inference/spot_mapper.py` line 53. -/
def spot_mapper_threshold : ℚ := 15/100

/-- The min-normalised overlap test of `spotection_system.py`
lines 96 and 114, over the same abstracted quantities:
`overlap_area / min(spot_area, box_area) > t`. -/
def min_normalized_test (overlap_area spot_area box_area t : ℚ) : Prop :=
  t < overlap_area / min spot_area box_area

/-- The overlap value a single detection contributes to the scan loop:
the code computes `overlap_ratio` only behind the `intersection.area > 0`
guard, otherwise the detection contributes nothing (0). -/
noncomputable def detOverlap (S : Set (ℝ × ℝ)) (d : Detection) : ℝ :=
  if 0 < interArea S d.box then overlap_ratio S d.box else 0

/-- Maximum of the contributed overlap values over a detection list
(0 for the empty list), the mathematical reading of the scan loop. -/
noncomputable def maxOverlapOf (S : Set (ℝ × ℝ)) (dets : List Detection) : ℝ :=
  (dets.map (detOverlap S)).foldl max 0

/-- The "winning" overlap ratio of the two-phase matching: the primary
maximum over the filtered vehicle detections, or, when that is zero, the
fallback maximum over all detections. -/
noncomputable def winningOverlap (S : Set (ℝ × ℝ)) (dets : List Detection) : ℝ :=
  if maxOverlapOf S (dets.filter isVehicleDetection) = 0 then maxOverlapOf S dets
  else maxOverlapOf S (dets.filter isVehicleDetection)

/-- Two-phase matching as claim C3 words it: the primary pass filtered by
vehicle class only, with no confidence condition.  Stated from the
claim's words, to be compared with `classifyScan`. -/
noncomputable def claimed_two_phase_class_only (S : Set (ℝ × ℝ)) (dets : List Detection) :
    ℝ × Option Detection :=
  let p := scanDetections S (dets.filter (fun d => decide (d.cls ∈ vehicle_classes))) (0, none)
  if p.1 = 0 then scanDetections S dets p else p

/-- Region enclosed by the spot polygon `[[0,0],[100,0],[100,100],[0,100]]`
of the concrete spec scenarios: the square `[0,100] × [0,100]`. -/
def squareSpotRegion : Set (ℝ × ℝ) := boxSet 0 0 100 100

/-- A vehicle detection with bbox `(40,40,60,60)`, fully inside the square spot. -/
def insideDetection : Detection := ⟨0, "car", 9/10, 40, 40, 60, 60⟩

/-- A vehicle detection with bbox `(99,0,199,100)`, overlapping the square
spot in a thin 1-by-100 strip (ratio `1/100`). -/
def edgeCar : Detection := ⟨0, "car", 1/2, 99, 0, 199, 100⟩

/-- A vehicle-class detection whose confidence `0.05` fails the code's
`confidence > 0.1` filter; bbox `(50,0,150,100)` (ratio `1/2`). -/
def lowConfCar : Detection := ⟨0, "car", 1/20, 50, 0, 150, 100⟩

/-- A non-vehicle detection whose bbox `(0,0,100,100)` covers the square
spot exactly (ratio `1`). -/
def insidePerson : Detection := ⟨1, "person", 9/10, 0, 0, 100, 100⟩

/-- The square polygon of the concrete scenarios, as a coordinate list. -/
def goodPoly : List (ℤ × ℤ) := [(0, 0), (100, 0), (100, 100), (0, 100)]

/-- The malformed two-point polygon `[[0,0],[1,0]]` of the concrete
load scenario. -/
def badPoly : List (ℤ × ℤ) := [(0, 0), (1, 0)]

/-- A shapely evaluation oracle: the square polygon evaluates to its
region, anything else raises. -/
def shapeExample : List (ℤ × ℤ) → Option (Set (ℝ × ℝ)) :=
  fun p => if p = goodPoly then some squareSpotRegion else none

/-- A registry entry whose evaluation succeeds. -/
def goodSpot : SpotEntry := ⟨"spot_1", goodPoly⟩

/-- A registry entry whose evaluation fails. -/
def badSpot : SpotEntry := ⟨"spot_2", badPoly⟩

/-- The malformed load entry `{"id": "s1", "polygon": [[0,0],[1,0]]}`. -/
def badEntry : SpotEntry := ⟨"s1", badPoly⟩

lemma volume_Icc_prod (a b c d : ℝ) :
    volume (Set.Icc a b ×ˢ Set.Icc c d) = ENNReal.ofReal (b - a) * ENNReal.ofReal (d - c) := by
  rw [show (volume : Measure (ℝ × ℝ)) = (volume : Measure ℝ).prod volume from
    Measure.volume_eq_prod ℝ ℝ, Measure.prod_prod, Real.volume_Icc, Real.volume_Icc]

lemma area_Icc_prod (a b c d : ℝ) :
    area (Set.Icc a b ×ˢ Set.Icc c d) = max (b - a) 0 * max (d - c) 0 := by
  rw [area, volume_Icc_prod, ENNReal.toReal_mul, ENNReal.toReal_ofReal', ENNReal.toReal_ofReal']

lemma area_boxSet (a b c d : ℝ) :
    area (boxSet a b c d) = max (c - a) 0 * max (d - b) 0 :=
  area_Icc_prod a c b d

lemma boxSet_inter_boxSet (a b c d a' b' c' d' : ℝ) :
    boxSet a b c d ∩ boxSet a' b' c' d' =
      Set.Icc (max a a') (min c c') ×ˢ Set.Icc (max b b') (min d d') := by
  rw [boxSet, boxSet, Set.prod_inter_prod, Set.Icc_inter_Icc, Set.Icc_inter_Icc]

lemma interArea_boxSet (a b c d a' b' c' d' : ℝ) :
    interArea (boxSet a b c d) (boxSet a' b' c' d') =
      max (min c c' - max a a') 0 * max (min d d' - max b b') 0 := by
  rw [interArea, boxSet_inter_boxSet, area_Icc_prod]

lemma volume_boxSet_ne_top (a b c d : ℝ) : volume (boxSet a b c d) ≠ ⊤ := by
  rw [boxSet, volume_Icc_prod]
  exact ENNReal.mul_ne_top ENNReal.ofReal_ne_top ENNReal.ofReal_ne_top

lemma area_nonneg (S : Set (ℝ × ℝ)) : 0 ≤ area S := ENNReal.toReal_nonneg

lemma interArea_nonneg (S B : Set (ℝ × ℝ)) : 0 ≤ interArea S B := ENNReal.toReal_nonneg

lemma detOverlap_eq (S : Set (ℝ × ℝ)) (d : Detection) :
    detOverlap S d = overlap_ratio S d.box := by
  by_cases h : 0 < interArea S d.box
  · rw [detOverlap, if_pos h]
  · rw [detOverlap, if_neg h]
    have h0 : interArea S d.box = 0 := le_antisymm (not_lt.1 h) (interArea_nonneg _ _)
    rw [overlap_ratio, h0, zero_div]

lemma left_le_foldl_max (l : List ℝ) (a : ℝ) : a ≤ l.foldl max a := by
  induction l generalizing a with
  | nil => exact le_rfl
  | cons x xs ih => exact le_trans (le_max_left a x) (ih (max a x))

lemma lt_foldl_max_iff (l : List ℝ) (a t : ℝ) :
    t < l.foldl max a ↔ t < a ∨ ∃ x ∈ l, t < x := by
  induction l generalizing a with
  | nil => simp
  | cons x xs ih =>
      rw [List.foldl_cons, ih]
      simp only [lt_max_iff, List.mem_cons]
      constructor
      · rintro ((h | h) | ⟨y, hy, hty⟩)
        · exact Or.inl h
        · exact Or.inr ⟨x, Or.inl rfl, h⟩
        · exact Or.inr ⟨y, Or.inr hy, hty⟩
      · rintro (h | ⟨y, hy | hy, hty⟩)
        · exact Or.inl (Or.inl h)
        · exact Or.inl (Or.inr (hy ▸ hty))
        · exact Or.inr ⟨y, hy, hty⟩

lemma maxOverlapOf_nonneg (S : Set (ℝ × ℝ)) (dets : List Detection) :
    0 ≤ maxOverlapOf S dets :=
  left_le_foldl_max _ 0

lemma lt_maxOverlapOf_iff (S : Set (ℝ × ℝ)) (dets : List Detection) (t : ℝ) (ht : 0 ≤ t) :
    t < maxOverlapOf S dets ↔ ∃ d ∈ dets, t < detOverlap S d := by
  rw [maxOverlapOf, lt_foldl_max_iff]
  constructor
  · rintro (h | ⟨x, hx, htx⟩)
    · exact absurd h (not_lt.2 ht)
    · obtain ⟨d, hd, rfl⟩ := List.mem_map.1 hx
      exact ⟨d, hd, htx⟩
  · rintro ⟨d, hd, htd⟩
    exact Or.inr ⟨detOverlap S d, List.mem_map.2 ⟨d, hd, rfl⟩, htd⟩

lemma scanDetections_cons (S : Set (ℝ × ℝ)) (d : Detection) (ds : List Detection)
    (acc : ℝ × Option Detection) :
    scanDetections S (d :: ds) acc =
      scanDetections S ds
        (if 0 < interArea S d.box then
          if acc.1 < overlap_ratio S d.box then (overlap_ratio S d.box, some d) else acc
        else acc) :=
  rfl

lemma scanDetections_fst (S : Set (ℝ × ℝ)) (dets : List Detection)
    (acc : ℝ × Option Detection) (h : 0 ≤ acc.1) :
    (scanDetections S dets acc).1 = (dets.map (detOverlap S)).foldl max acc.1 := by
  induction dets generalizing acc with
  | nil => rfl
  | cons d ds ih =>
      rw [scanDetections_cons]
      have h1 : (if 0 < interArea S d.box then
          if acc.1 < overlap_ratio S d.box then (overlap_ratio S d.box, some d) else acc
        else acc).1 = max acc.1 (detOverlap S d) := by
        by_cases hpos : 0 < interArea S d.box
        · rw [if_pos hpos, detOverlap, if_pos hpos]
          by_cases hlt : acc.1 < overlap_ratio S d.box
          · rw [if_pos hlt]
            exact (max_eq_right hlt.le).symm
          · rw [if_neg hlt]
            exact (max_eq_left (not_lt.1 hlt)).symm
        · rw [if_neg hpos, detOverlap, if_neg hpos]
          exact (max_eq_left h).symm
      rw [ih _ (h1 ▸ le_trans h (le_max_left _ _)), h1, List.map_cons, List.foldl_cons]

lemma classifyScan_fst (S : Set (ℝ × ℝ)) (dets : List Detection) :
    (classifyScan S dets).1 = winningOverlap S dets := by
  have hp : (scanDetections S (dets.filter isVehicleDetection) (0, none)).1 =
      maxOverlapOf S (dets.filter isVehicleDetection) :=
    scanDetections_fst S _ (0, none) le_rfl
  simp only [classifyScan, winningOverlap]
  by_cases h : maxOverlapOf S (dets.filter isVehicleDetection) = 0
  · rw [if_pos (hp.trans h), if_pos h,
      scanDetections_fst S dets _ (le_of_eq (hp.trans h).symm), hp, h, maxOverlapOf]
  · rw [if_neg fun h0 => h (hp.symm.trans h0), if_neg h, hp]

lemma insideDetection_box : insideDetection.box = boxSet 40 40 60 60 := by
  simp only [Detection.box, insideDetection]
  norm_num

lemma edgeCar_box : edgeCar.box = boxSet 99 0 199 100 := by
  simp only [Detection.box, edgeCar]
  norm_num

lemma lowConfCar_box : lowConfCar.box = boxSet 50 0 150 100 := by
  simp only [Detection.box, lowConfCar]
  norm_num

lemma insidePerson_box : insidePerson.box = boxSet 0 0 100 100 := by
  simp only [Detection.box, insidePerson]
  norm_num

lemma area_square : area squareSpotRegion = 10000 := by
  rw [squareSpotRegion, area_boxSet]
  norm_num

lemma volume_square_ne_zero : volume squareSpotRegion ≠ 0 := by
  rw [squareSpotRegion, boxSet, volume_Icc_prod]
  intro h
  rcases mul_eq_zero.1 h with h0 | h0 <;> rw [ENNReal.ofReal_eq_zero] at h0 <;> norm_num at h0

lemma volume_square_ne_top : volume squareSpotRegion ≠ ⊤ := by
  rw [squareSpotRegion]
  exact volume_boxSet_ne_top 0 0 100 100

lemma area_inside_box : area insideDetection.box = 400 := by
  rw [insideDetection_box, area_boxSet]
  norm_num

lemma interArea_square_inside : interArea squareSpotRegion insideDetection.box = 400 := by
  rw [insideDetection_box, squareSpotRegion, interArea_boxSet]
  norm_num

lemma ratio_square_inside : overlap_ratio squareSpotRegion insideDetection.box = 1 := by
  rw [overlap_ratio, interArea_square_inside, area_square, area_inside_box]
  norm_num

lemma area_edgeCar_box : area edgeCar.box = 10000 := by
  rw [edgeCar_box, area_boxSet]
  norm_num

lemma interArea_square_edgeCar : interArea squareSpotRegion edgeCar.box = 100 := by
  rw [edgeCar_box, squareSpotRegion, interArea_boxSet]
  norm_num

lemma ratio_square_edgeCar : overlap_ratio squareSpotRegion edgeCar.box = 1/100 := by
  rw [overlap_ratio, interArea_square_edgeCar, area_square, area_edgeCar_box]
  norm_num

lemma area_lowConfCar_box : area lowConfCar.box = 10000 := by
  rw [lowConfCar_box, area_boxSet]
  norm_num

lemma interArea_square_lowConfCar : interArea squareSpotRegion lowConfCar.box = 5000 := by
  rw [lowConfCar_box, squareSpotRegion, interArea_boxSet]
  norm_num

lemma ratio_square_lowConfCar : overlap_ratio squareSpotRegion lowConfCar.box = 1/2 := by
  rw [overlap_ratio, interArea_square_lowConfCar, area_square, area_lowConfCar_box]
  norm_num

lemma area_insidePerson_box : area insidePerson.box = 10000 := by
  rw [insidePerson_box, area_boxSet]
  norm_num

lemma interArea_square_insidePerson : interArea squareSpotRegion insidePerson.box = 10000 := by
  rw [insidePerson_box, squareSpotRegion, interArea_boxSet]
  norm_num

lemma ratio_square_insidePerson : overlap_ratio squareSpotRegion insidePerson.box = 1 := by
  rw [overlap_ratio, interArea_square_insidePerson, area_square, area_insidePerson_box]
  norm_num

lemma isVehicle_insideDetection : isVehicleDetection insideDetection = true := by
  norm_num [isVehicleDetection, insideDetection, vehicle_classes]

lemma isVehicle_edgeCar : isVehicleDetection edgeCar = true := by
  norm_num [isVehicleDetection, edgeCar, vehicle_classes]

lemma isVehicle_lowConfCar : isVehicleDetection lowConfCar = false := by
  norm_num [isVehicleDetection, lowConfCar, vehicle_classes]

lemma isVehicle_insidePerson : isVehicleDetection insidePerson = false := by
  norm_num [isVehicleDetection, insidePerson, vehicle_classes]
  refine ⟨?_, ?_, ?_, ?_, ?_, ?_⟩ <;> decide

lemma scanDetections_nil (S : Set (ℝ × ℝ)) (acc : ℝ × Option Detection) :
    scanDetections S [] acc = acc :=
  rfl

lemma classifyScan_square_inside :
    classifyScan squareSpotRegion [insideDetection] = (1, some insideDetection) := by
  have hfil : [insideDetection].filter isVehicleDetection = [insideDetection] := by
    simp [List.filter, isVehicle_insideDetection]
  simp only [classifyScan, hfil]
  rw [scanDetections_cons, interArea_square_inside, ratio_square_inside]
  norm_num [scanDetections]

lemma classifyScan_square_edge_person :
    classifyScan squareSpotRegion [edgeCar, insidePerson] = (1/100, some edgeCar) := by
  have hfil : [edgeCar, insidePerson].filter isVehicleDetection = [edgeCar] := by
    simp [List.filter, isVehicle_edgeCar, isVehicle_insidePerson]
  simp only [classifyScan, hfil, scanDetections_cons, scanDetections_nil]
  rw [interArea_square_edgeCar, ratio_square_edgeCar, interArea_square_insidePerson,
    ratio_square_insidePerson]
  norm_num

lemma classifyScan_square_lowconf_person :
    classifyScan squareSpotRegion [lowConfCar, insidePerson] = (1, some insidePerson) := by
  have hfil : [lowConfCar, insidePerson].filter isVehicleDetection = [] := by
    simp [List.filter, isVehicle_lowConfCar, isVehicle_insidePerson]
  simp only [classifyScan, hfil, scanDetections_cons, scanDetections_nil]
  rw [interArea_square_lowConfCar, ratio_square_lowConfCar, interArea_square_insidePerson,
    ratio_square_insidePerson]
  norm_num

lemma classOnly_lowConfCar : decide (lowConfCar.cls ∈ vehicle_classes) = true := by
  norm_num [lowConfCar, vehicle_classes]

lemma classOnly_insidePerson : decide (insidePerson.cls ∈ vehicle_classes) = false := by
  norm_num [insidePerson, vehicle_classes]
  refine ⟨?_, ?_, ?_, ?_, ?_, ?_⟩ <;> decide

lemma claimed_square_lowconf_person :
    claimed_two_phase_class_only squareSpotRegion [lowConfCar, insidePerson] =
      (1/2, some lowConfCar) := by
  have hfil : [lowConfCar, insidePerson].filter (fun d => decide (d.cls ∈ vehicle_classes)) =
      [lowConfCar] := by
    simp [List.filter_cons, classOnly_lowConfCar, classOnly_insidePerson]
  simp only [claimed_two_phase_class_only, hfil, scanDetections_cons, scanDetections_nil]
  rw [interArea_square_lowConfCar, ratio_square_lowConfCar, interArea_square_insidePerson,
    ratio_square_insidePerson]
  norm_num

lemma le_foldl_max_of_mem (l : List ℝ) (a x : ℝ) (hx : x ∈ l) : x ≤ l.foldl max a := by
  induction l generalizing a with
  | nil => cases hx
  | cons y ys ih =>
      rw [List.foldl_cons]
      rcases List.mem_cons.1 hx with rfl | hx'
      · exact le_trans (le_max_right a x) (left_le_foldl_max ys (max a x))
      · exact ih (max a y) hx'

lemma detOverlap_le_maxOverlapOf (S : Set (ℝ × ℝ)) (dets : List Detection) (d : Detection)
    (hd : d ∈ dets) : detOverlap S d ≤ maxOverlapOf S dets :=
  le_foldl_max_of_mem _ 0 _ (List.mem_map.2 ⟨d, hd, rfl⟩)

lemma shapeExample_good : shapeExample goodPoly = some squareSpotRegion := by
  simp [shapeExample]

lemma shapeExample_bad : shapeExample badPoly = none := by
  simp only [shapeExample]
  exact if_neg (by decide)

lemma classifyScan_empty (S : Set (ℝ × ℝ)) : classifyScan S [] = (0, none) := by
  simp [classifyScan, scanDetections_nil]

lemma processSpot_shape_none (shape : List (ℤ × ℤ) → Option (Set (ℝ × ℝ))) (t : ℝ)
    (dets : List Detection) (s : SpotEntry) (h : shape s.polygon = none) :
    processSpot shape t dets s = none := by
  simp [processSpot, h]

lemma processSpot_shape_some (shape : List (ℤ × ℤ) → Option (Set (ℝ × ℝ))) (t : ℝ)
    (dets : List Detection) (s : SpotEntry) (S : Set (ℝ × ℝ)) (h : shape s.polygon = some S) :
    processSpot shape t dets s =
      some ⟨s.id, if t < (classifyScan S dets).1 then "OCCUPIED" else "FREE",
        (classifyScan S dets).1, (classifyScan S dets).2.map Detection.cls⟩ := by
  simp [processSpot, h]

lemma results_example :
    quick_fix_results shapeExample (1/100) [] [goodSpot, badSpot] =
      [⟨"spot_1", "FREE", 0, none⟩] := by
  have h1 : processSpot shapeExample (1/100) ([] : List Detection) goodSpot =
      some ⟨"spot_1", "FREE", 0, none⟩ := by
    rw [processSpot_shape_some shapeExample (1/100) [] goodSpot squareSpotRegion shapeExample_good,
      classifyScan_empty]
    norm_num [goodSpot]
  have h2 : processSpot shapeExample (1/100) ([] : List Detection) badSpot = none :=
    processSpot_shape_none shapeExample (1/100) [] badSpot shapeExample_bad
  rw [quick_fix_results, List.filterMap_cons_some h1, List.filterMap_cons_none h2,
    List.filterMap_nil]

/-- C1: for every spot polygon region with positive finite area and every
detection bbox `(x1,y1,x2,y2)` with `x1 < x2` and `y1 < y2`, the overlap
evaluation is `intersection_area / min(polygon_area, bbox_area)`; this
ratio lies in `[0,1]`, and it equals 0 iff the polygon and the box are
disjoint, i.e. their intersection has zero area. -/
theorem C1_overlap_ratio_bounds (S : Set (ℝ × ℝ)) (d : Detection)
    (hS0 : volume S ≠ 0) (hStop : volume S ≠ ⊤) (hx : d.x1 < d.x2) (hy : d.y1 < d.y2) :
    overlap_ratio S d.box = interArea S d.box / min (area S) (area d.box) ∧
    0 ≤ overlap_ratio S d.box ∧ overlap_ratio S d.box ≤ 1 ∧
    (overlap_ratio S d.box = 0 ↔ volume (S ∩ d.box) = 0) := by
  have hxR : (d.x1 : ℝ) < (d.x2 : ℝ) := by exact_mod_cast hx
  have hyR : (d.y1 : ℝ) < (d.y2 : ℝ) := by exact_mod_cast hy
  have hAS : 0 < area S := ENNReal.toReal_pos hS0 hStop
  have hAB : 0 < area d.box := by
    rw [Detection.box, area_boxSet]
    rw [max_eq_left (by linarith), max_eq_left (by linarith)]
    have h1 : (0 : ℝ) < (d.x2 : ℝ) - d.x1 := by linarith
    have h2 : (0 : ℝ) < (d.y2 : ℝ) - d.y1 := by linarith
    exact mul_pos h1 h2
  have hBtop : volume d.box ≠ ⊤ := by
    rw [Detection.box]
    exact volume_boxSet_ne_top _ _ _ _
  have hItop : volume (S ∩ d.box) ≠ ⊤ :=
    ne_top_of_le_ne_top hStop (measure_mono Set.inter_subset_left)
  have hIS : interArea S d.box ≤ area S :=
    ENNReal.toReal_mono hStop (measure_mono Set.inter_subset_left)
  have hIB : interArea S d.box ≤ area d.box :=
    ENNReal.toReal_mono hBtop (measure_mono Set.inter_subset_right)
  have hmin : 0 < min (area S) (area d.box) := lt_min hAS hAB
  refine ⟨rfl, div_nonneg (interArea_nonneg _ _) hmin.le,
    div_le_one_of_le₀ (le_min hIS hIB) hmin.le, ?_⟩
  rw [overlap_ratio, div_eq_zero_iff]
  constructor
  · rintro (h | h)
    · rw [interArea, area, ENNReal.toReal_eq_zero_iff] at h
      exact h.resolve_right hItop
    · exact absurd h hmin.ne'
  · intro h
    left
    rw [interArea, area, h, ENNReal.zero_toReal]

/-- Witness for C1 at the square spot region and the fully-inside bbox. -/
theorem C1_overlap_ratio_bounds_witness :
    overlap_ratio squareSpotRegion insideDetection.box =
        interArea squareSpotRegion insideDetection.box /
          min (area squareSpotRegion) (area insideDetection.box) ∧
    0 ≤ overlap_ratio squareSpotRegion insideDetection.box ∧
    overlap_ratio squareSpotRegion insideDetection.box ≤ 1 ∧
    (overlap_ratio squareSpotRegion insideDetection.box = 0 ↔
      volume (squareSpotRegion ∩ insideDetection.box) = 0) :=
  C1_overlap_ratio_bounds squareSpotRegion insideDetection
    volume_square_ne_zero volume_square_ne_top (by norm_num [insideDetection])
    (by norm_num [insideDetection])

/-- C10: the two overlap predicates of the two call sites are equivalent
for positive areas, nonnegative intersection area and positive threshold,
because `inter / min(a,b) = max(inter/a, inter/b)`. -/
theorem C10_overlap_tests_equivalent (inter pa ba t : ℚ) (hpa : 0 < pa) (hba : 0 < ba)
    (hinter : 0 ≤ inter) (ht : 0 < t) :
    (spot_mapper_occupied_test inter pa ba t ↔ min_normalized_test inter pa ba t) ∧
    inter / min pa ba = max (inter / pa) (inter / ba) := by
  have key : inter / min pa ba = max (inter / pa) (inter / ba) := by
    rcases le_total pa ba with h | h
    · rw [min_eq_left h, max_eq_left (div_le_div_of_nonneg_left hinter hpa h)]
    · rw [min_eq_right h, max_eq_right (div_le_div_of_nonneg_left hinter hba h)]
  refine ⟨?_, key⟩
  rw [spot_mapper_occupied_test, min_normalized_test, key, lt_max_iff]

/-- Witness for C10 at the concrete-scenario numbers and the spot_mapper
threshold 0.15. -/
theorem C10_overlap_tests_equivalent_witness :
    (spot_mapper_occupied_test 400 10000 400 spot_mapper_threshold ↔
      min_normalized_test 400 10000 400 spot_mapper_threshold) ∧
    (400 : ℚ) / min 10000 400 = max ((400 : ℚ) / 10000) ((400 : ℚ) / 400) :=
  C10_overlap_tests_equivalent 400 10000 400 spot_mapper_threshold
    (by norm_num) (by norm_num) (by norm_num) (by norm_num [spot_mapper_threshold])

/-- C9: for a fixed spot region and detection list, if the status at the
larger threshold is OCCUPIED then it is OCCUPIED at every smaller
threshold: raising the threshold can only flip OCCUPIED to FREE. -/
theorem C9_threshold_monotone (t1 t2 : ℝ) (S : Set (ℝ × ℝ)) (dets : List Detection)
    (h12 : t1 ≤ t2) (h2 : statusOf t2 S dets = "OCCUPIED") :
    statusOf t1 S dets = "OCCUPIED" := by
  rw [statusOf] at h2 ⊢
  by_cases hm : t2 < (classifyScan S dets).1
  · exact if_pos (lt_of_le_of_lt h12 hm)
  · rw [if_neg hm] at h2
    exact absurd h2 (by simp)

/-- Witness for C9 with thresholds 1/4 ≤ 1/2 on the fully-inside scenario. -/
theorem C9_threshold_monotone_witness :
    statusOf (1/4) squareSpotRegion [insideDetection] = "OCCUPIED" :=
  C9_threshold_monotone (1/4) (1/2) squareSpotRegion [insideDetection] (by norm_num)
    (by rw [statusOf, classifyScan_square_inside]; norm_num)

/-- C8: with an empty registry, the save command writes nothing, reports
"No spots to save!" and does not end the session; the undo command changes
nothing, reports "No spots to undo!" and does not end the session. -/
theorem C8_empty_registry_graceful (st : CalibState) (h : st.spots = []) :
    handle_save st = ⟨st, none, some "No spots to save!", false⟩ ∧
    handle_undo st = ⟨st, none, some "No spots to undo!", false⟩ := by
  have hlen : ¬ 0 < st.spots.length := by
    rw [h]
    simp
  exact ⟨by rw [handle_save, if_neg hlen], by rw [handle_undo, if_neg hlen]⟩

/-- Witness for C8 at the fresh calibration state. -/
theorem C8_empty_registry_graceful_witness :
    handle_save ⟨[], [], 1⟩ = ⟨⟨[], [], 1⟩, none, some "No spots to save!", false⟩ ∧
    handle_undo ⟨[], [], 1⟩ = ⟨⟨[], [], 1⟩, none, some "No spots to undo!", false⟩ :=
  C8_empty_registry_graceful ⟨[], [], 1⟩ rfl

/-- C7: from a state with an empty pending buffer, four `add_point` calls
append exactly one spot whose polygon is the four clicked points in click
order and whose id is `spot_<counter>`, clear the buffer and bump the
counter; an immediate undo restores exactly the original state. -/
theorem C7_add_four_points_then_undo (st : CalibState) (p1 p2 p3 p4 : ℤ × ℤ)
    (hcp : st.current_polygon = [])
    (hdist : [p1, p2, p3, p4].Pairwise (· ≠ ·)) :
    (add_point (add_point (add_point (add_point st p1.1 p1.2) p2.1 p2.2) p3.1 p3.2)
        p4.1 p4.2).spots =
      st.spots ++ [⟨spotId st.spot_counter, [p1, p2, p3, p4]⟩] ∧
    (add_point (add_point (add_point (add_point st p1.1 p1.2) p2.1 p2.2) p3.1 p3.2)
        p4.1 p4.2).current_polygon = [] ∧
    (add_point (add_point (add_point (add_point st p1.1 p1.2) p2.1 p2.2) p3.1 p3.2)
        p4.1 p4.2).spot_counter = st.spot_counter + 1 ∧
    (handle_undo (add_point (add_point (add_point (add_point st p1.1 p1.2) p2.1 p2.2)
        p3.1 p3.2) p4.1 p4.2)).state = st := by
  rcases st with ⟨spots, cp, c⟩
  simp only [CalibState.mk.injEq] at hcp ⊢
  subst hcp
  simp [add_point, handle_undo, spotId]

/-- Witness for C7: four distinct clicks on a fresh state, then undo. -/
theorem C7_add_four_points_then_undo_witness :
    (add_point (add_point (add_point (add_point ⟨[], [], 1⟩ 0 0) 10 0) 10 10) 0 10).spots =
      [] ++ [⟨spotId 1, [(0, 0), (10, 0), (10, 10), (0, 10)]⟩] ∧
    (add_point (add_point (add_point (add_point ⟨[], [], 1⟩ 0 0) 10 0) 10 10)
        0 10).current_polygon = [] ∧
    (add_point (add_point (add_point (add_point ⟨[], [], 1⟩ 0 0) 10 0) 10 10)
        0 10).spot_counter = 1 + 1 ∧
    (handle_undo (add_point (add_point (add_point (add_point ⟨[], [], 1⟩ 0 0) 10 0)
        10 10) 0 10)).state = ⟨[], [], 1⟩ :=
  C7_add_four_points_then_undo ⟨[], [], 1⟩ (0, 0) (10, 0) (10, 10) (0, 10) rfl (by decide)

/-- C2 counterexample: at threshold exactly 1.0, the fully-inside scenario
(winning ratio 1.0) yields FREE, not OCCUPIED, because the decision
compares strictly — refuting "OCCUPIED at any threshold ≤ 1.0". -/
theorem C2_counterexample_threshold_one :
    (1 : ℝ) ≤ 1 ∧ statusOf 1 squareSpotRegion [insideDetection] ≠ "OCCUPIED" := by
  refine ⟨le_rfl, ?_⟩
  rw [statusOf, classifyScan_square_inside]
  norm_num
  decide

/-- C2 amended: the status is OCCUPIED iff the winning (maximum) overlap
ratio strictly exceeds the threshold, and FREE otherwise; in the concrete
scenario the winning ratio is `400 / min(10000, 400) = 1.0` and the status
is OCCUPIED at any threshold strictly below 1.0. -/
theorem C2_status_iff_winning_ratio :
    (∀ (t : ℝ) (S : Set (ℝ × ℝ)) (dets : List Detection),
      (statusOf t S dets = "OCCUPIED" ↔ t < winningOverlap S dets) ∧
      (statusOf t S dets = "FREE" ↔ winningOverlap S dets ≤ t)) ∧
    winningOverlap squareSpotRegion [insideDetection] = 1 ∧
    (∀ t : ℝ, t < 1 → statusOf t squareSpotRegion [insideDetection] = "OCCUPIED") := by
  have hgen : ∀ (t : ℝ) (S : Set (ℝ × ℝ)) (dets : List Detection),
      (statusOf t S dets = "OCCUPIED" ↔ t < winningOverlap S dets) ∧
      (statusOf t S dets = "FREE" ↔ winningOverlap S dets ≤ t) := by
    intro t S dets
    rw [statusOf, classifyScan_fst]
    by_cases h : t < winningOverlap S dets
    · rw [if_pos h]
      exact ⟨⟨fun _ => h, fun _ => rfl⟩,
        ⟨fun hf => absurd hf (by simp), fun hle => absurd h (not_lt.2 hle)⟩⟩
    · rw [if_neg h]
      exact ⟨⟨fun ho => absurd ho (by simp), fun hlt => absurd hlt h⟩,
        ⟨fun _ => not_lt.1 h, fun _ => rfl⟩⟩
  have hw : winningOverlap squareSpotRegion [insideDetection] = 1 := by
    rw [← classifyScan_fst, classifyScan_square_inside]
  exact ⟨hgen, hw,
    fun t ht => (hgen t squareSpotRegion [insideDetection]).1.2 (by rw [hw]; exact ht)⟩

/-- Witness for the amended C2 at threshold 1/2. -/
theorem C2_status_iff_winning_ratio_witness :
    statusOf (1/2) squareSpotRegion [insideDetection] = "OCCUPIED" :=
  C2_status_iff_winning_ratio.2.2 (1/2) (by norm_num)

/-- C3 counterexample: on a list with a confidence-0.05 vehicle-class
detection and a non-vehicle detection, the code's two-phase matching
(whose primary filter also requires `confidence > 0.1`) differs from the
claim's class-only two-phase matching. -/
theorem C3_counterexample_confidence_filter :
    classifyScan squareSpotRegion [lowConfCar, insidePerson] ≠
      claimed_two_phase_class_only squareSpotRegion [lowConfCar, insidePerson] := by
  rw [classifyScan_square_lowconf_person, claimed_square_lowconf_person]
  intro h
  have h1 := congrArg Prod.fst h
  norm_num at h1

/-- C3 amended: the primary pass maximises over detections whose class is
in the vehicle set AND whose confidence exceeds 0.1; the fallback over all
detections runs iff that primary maximum is zero; consequently, given no
vehicle-class detection at all and some detection above threshold, the
status is OCCUPIED via the fallback. -/
theorem C3_two_phase_amended :
    (∀ (S : Set (ℝ × ℝ)) (dets : List Detection),
      (classifyScan S dets).1 =
        if maxOverlapOf S (dets.filter isVehicleDetection) = 0 then maxOverlapOf S dets
        else maxOverlapOf S (dets.filter isVehicleDetection)) ∧
    (∀ (t : ℝ) (S : Set (ℝ × ℝ)) (dets : List Detection), 0 ≤ t →
      (∀ d ∈ dets, d.cls ∉ vehicle_classes) →
      (∃ d ∈ dets, t < overlap_ratio S d.box) →
      statusOf t S dets = "OCCUPIED") := by
  constructor
  · intro S dets
    rw [classifyScan_fst, winningOverlap]
  · rintro t S dets ht hnv ⟨d, hd, htd⟩
    have hfil : dets.filter isVehicleDetection = [] := by
      rw [List.filter_eq_nil_iff]
      intro a ha
      simp only [isVehicleDetection, decide_eq_true_eq]
      exact fun hcls => hnv a ha hcls.1
    rw [statusOf, classifyScan_fst, winningOverlap, hfil]
    have hm0 : maxOverlapOf S ([] : List Detection) = 0 := rfl
    rw [if_pos hm0]
    exact if_pos ((lt_maxOverlapOf_iff S dets t ht).2
      ⟨d, hd, by rw [detOverlap_eq]; exact htd⟩)

/-- Witness for the amended C3: the fallback scenario with one non-vehicle
detection above the threshold. -/
theorem C3_two_phase_amended_witness :
    statusOf (1/100) squareSpotRegion [insidePerson] = "OCCUPIED" :=
  C3_two_phase_amended.2 (1/100) squareSpotRegion [insidePerson] (by norm_num)
    (fun d hd => by
      rcases List.mem_singleton.1 hd with rfl
      exact of_decide_eq_false classOnly_insidePerson)
    ⟨insidePerson, List.mem_singleton.2 rfl, by rw [ratio_square_insidePerson]; norm_num⟩

/-- C4 counterexample: a vehicle detection with overlap ratio exactly
1/100 (not above the threshold 1/100) wins the primary pass with positive
overlap, so the fallback never runs; a non-vehicle detection with ratio 1
above the threshold is in the list, yet the status is FREE. -/
theorem C4_counterexample_primary_blocks_fallback :
    ¬ (statusOf (1/100) squareSpotRegion [edgeCar, insidePerson] = "OCCUPIED" ↔
        ∃ d ∈ [edgeCar, insidePerson],
          (1/100 : ℝ) < overlap_ratio squareSpotRegion d.box) := by
  intro h
  have hfree : statusOf (1/100) squareSpotRegion [edgeCar, insidePerson] = "FREE" := by
    rw [statusOf, classifyScan_square_edge_person]
    norm_num
  have hocc := h.2 ⟨insidePerson, by simp, by rw [ratio_square_insidePerson]; norm_num⟩
  rw [hocc] at hfree
  exact absurd hfree (by simp)

/-- C4 amended: OCCUPIED iff some primary-pass detection (vehicle class,
confidence > 0.1) has ratio above the threshold, or the primary pass found
zero overlap and some detection in the whole list has ratio above the
threshold. -/
theorem C4_occupied_iff_amended (t : ℝ) (S : Set (ℝ × ℝ)) (dets : List Detection)
    (ht : 0 ≤ t) :
    statusOf t S dets = "OCCUPIED" ↔
      ((∃ d ∈ dets.filter isVehicleDetection, t < overlap_ratio S d.box) ∨
        (maxOverlapOf S (dets.filter isVehicleDetection) = 0 ∧
          ∃ d ∈ dets, t < overlap_ratio S d.box)) := by
  rw [statusOf, classifyScan_fst, winningOverlap]
  by_cases h : maxOverlapOf S (dets.filter isVehicleDetection) = 0
  · rw [if_pos h]
    constructor
    · intro hocc
      by_cases hlt : t < maxOverlapOf S dets
      · obtain ⟨d, hd, hdt⟩ := (lt_maxOverlapOf_iff S dets t ht).1 hlt
        exact Or.inr ⟨h, d, hd, by rw [← detOverlap_eq]; exact hdt⟩
      · rw [if_neg hlt] at hocc
        exact absurd hocc (by simp)
    · rintro (⟨d, hd, hdt⟩ | ⟨-, d, hd, hdt⟩)
      · have h1 : detOverlap S d ≤ 0 := h ▸ detOverlap_le_maxOverlapOf S _ d hd
        have h2 : t < detOverlap S d := by rw [detOverlap_eq]; exact hdt
        exact absurd (h2.trans_le (h1.trans ht)) (lt_irrefl t)
      · exact if_pos ((lt_maxOverlapOf_iff S dets t ht).2
          ⟨d, hd, by rw [detOverlap_eq]; exact hdt⟩)
  · rw [if_neg h]
    constructor
    · intro hocc
      by_cases hlt : t < maxOverlapOf S (dets.filter isVehicleDetection)
      · obtain ⟨d, hd, hdt⟩ := (lt_maxOverlapOf_iff S _ t ht).1 hlt
        exact Or.inl ⟨d, hd, by rw [← detOverlap_eq]; exact hdt⟩
      · rw [if_neg hlt] at hocc
        exact absurd hocc (by simp)
    · rintro (⟨d, hd, hdt⟩ | ⟨h0, -⟩)
      · exact if_pos ((lt_maxOverlapOf_iff S _ t ht).2
          ⟨d, hd, by rw [detOverlap_eq]; exact hdt⟩)
      · exact absurd h0 h

/-- Witness for the amended C4 at the fallback scenario input. -/
theorem C4_occupied_iff_amended_witness :
    statusOf (1/100) squareSpotRegion [insidePerson] = "OCCUPIED" ↔
      ((∃ d ∈ [insidePerson].filter isVehicleDetection,
          (1/100 : ℝ) < overlap_ratio squareSpotRegion d.box) ∨
        (maxOverlapOf squareSpotRegion ([insidePerson].filter isVehicleDetection) = 0 ∧
          ∃ d ∈ [insidePerson], (1/100 : ℝ) < overlap_ratio squareSpotRegion d.box)) :=
  C4_occupied_iff_amended (1/100) squareSpotRegion [insidePerson] (by norm_num)

/-- C5 counterexample: with a two-spot registry whose second polygon fails
evaluation, the pass yields a single snapshot — the failing spot gets no
snapshot at all, in particular no UNKNOWN one. -/
theorem C5_counterexample_failing_spot_skipped :
    ¬ ((quick_fix_results shapeExample (1/100) [] [goodSpot, badSpot]).length =
        [goodSpot, badSpot].length ∧
      ∃ snap ∈ quick_fix_results shapeExample (1/100) [] [goodSpot, badSpot],
        snap.id = "spot_2" ∧ snap.status = "UNKNOWN") := by
  rw [results_example]
  rintro ⟨hlen, -⟩
  simp at hlen

/-- C5 amended: the pass yields exactly one snapshot per successfully
evaluated spot, in registry order; a spot whose evaluation fails is
silently skipped (no snapshot), and the rest of the pass is unaffected. -/
theorem C5_pass_skips_failing_spots (shape : List (ℤ × ℤ) → Option (Set (ℝ × ℝ)))
    (t : ℝ) (dets : List Detection) :
    (∀ spots : List SpotEntry,
      (quick_fix_results shape t dets spots).map Snapshot.id =
        (spots.filter (fun s => (shape s.polygon).isSome)).map SpotEntry.id) ∧
    (∀ (pre post : List SpotEntry) (s : SpotEntry), shape s.polygon = none →
      quick_fix_results shape t dets (pre ++ s :: post) =
        quick_fix_results shape t dets pre ++ quick_fix_results shape t dets post) := by
  constructor
  · intro spots
    induction spots with
    | nil => rfl
    | cons s ss ih =>
        rcases hs : shape s.polygon with _ | S
        · simpa [quick_fix_results, processSpot_shape_none shape t dets s hs,
            List.filter_cons, hs] using ih
        · simpa [quick_fix_results, processSpot_shape_some shape t dets s S hs,
            List.filter_cons, hs] using ih
  · intro pre post s hs
    simp [quick_fix_results, List.filterMap_append,
      processSpot_shape_none shape t dets s hs]

/-- Witness for the amended C5: the failing spot drops out of the pass. -/
theorem C5_pass_skips_failing_spots_witness :
    quick_fix_results shapeExample (1/100) [] ([goodSpot] ++ badSpot :: []) =
      quick_fix_results shapeExample (1/100) [] [goodSpot] ++
        quick_fix_results shapeExample (1/100) [] [] :=
  (C5_pass_skips_failing_spots shapeExample (1/100) []).2 [goodSpot] [] badSpot
    shapeExample_bad

/-- C6 counterexample: loading `[{"id":"s1","polygon":[[0,0],[1,0]]}]`
does not fail — there is no error outcome; the malformed entry is accepted
verbatim. -/
theorem C6_counterexample_load_accepts :
    (¬ ∃ e, load_layout [badEntry] = Except.error e) ∧
    load_layout [badEntry] = Except.ok [badEntry] := by
  constructor
  · rintro ⟨e, he⟩
    simp [load_layout] at he
  · rfl

/-- C6 amended: the engine's registry load performs no validation and
never fails; an entry whose polygon has fewer than 3 points is accepted at
load and then silently skipped by the inference pass (its shapely
evaluation raises); the calibration tool's load falls back to an empty
fresh registry on failure instead of reporting MalformedLayout. -/
theorem C6_load_never_fails_amended :
    (∀ entries : List SpotEntry, load_layout entries = Except.ok entries) ∧
    (∀ (shape : List (ℤ × ℤ) → Option (Set (ℝ × ℝ))) (t : ℝ) (dets : List Detection),
      (∀ p : List (ℤ × ℤ), p.length < 3 → shape p = none) →
      quick_fix_results shape t dets [badEntry] = []) ∧
    calibration_load none = ([], 1) ∧
    (∀ existing : List SpotEntry,
      calibration_load (some existing) = (existing, existing.length + 1)) := by
  refine ⟨fun _ => rfl, ?_, rfl, fun _ => rfl⟩
  intro shape t dets h
  have hs : shape badEntry.polygon = none := h badPoly (by simp [badPoly])
  simp [quick_fix_results, processSpot_shape_none shape t dets badEntry hs]

/-- Witness for the amended C6 with a shapely oracle that indeed fails on
short polygons. -/
theorem C6_load_never_fails_amended_witness :
    quick_fix_results shapeExample (1/100) [] [badEntry] = [] :=
  C6_load_never_fails_amended.2.1 shapeExample (1/100) []
    (fun p hp => by
      have hne : p ≠ goodPoly := by
        rintro rfl
        simp [goodPoly] at hp
      simp [shapeExample, hne])

end Spotection
